import Mathlib

/-!
Shallow embedding of the gym-management HTTP route handlers
(Next.js route files under `src/app/api` and `src/pages/api`).

Each handler is modelled as a pure function of its inputs:
the admin-key check result, the decoded bearer-token identity,
the parsed JSON body (JSON-absent fields are `Option.none`),
and the external store.  The external store is modelled either as an
explicit `Store` value (for the handlers whose logic reads it before
responding) or as a parameter carrying the error code the store
returned for a single insert/update/delete call (for the handlers that
only map that code to an HTTP status).  JavaScript truthiness on the
field types that occur (`string`, `number`, `boolean`) is modelled
explicitly.  JS numbers are modelled as `Int`: every comparison the
handlers perform on them is against 0, so integer embedding is faithful
for all inputs the claims mention.
-/

namespace GymApi

/-- An HTTP response as produced by the route handlers:
`success s` models `NextResponse.json({ data }, { status: s })`,
`failure s err missing` models `NextResponse.json({ error, missing? }, { status: s })`
(`missing = []` when the body has no `missing` key), and
`noContent` models `new NextResponse(null, { status: 204 })`. -/
inductive ApiResponse where
  | success (status : Nat)
  | failure (status : Nat) (error : String) (missing : List String)
  | noContent
deriving DecidableEq, Repr

/-- The HTTP status code of a response. -/
def ApiResponse.statusCode : ApiResponse → Nat
  | .success s => s
  | .failure s _ _ => s
  | .noContent => 204

/-- `errorResponse(message, status)` helper shared by all route files. -/
def errorResponse (message : String) (status : Nat := 400) : ApiResponse :=
  .failure status message []

/-- JS truthiness of an optional string field: `undefined`, `null` and `""`
are falsy, every other string is truthy. -/
def strFalsy : Option String → Bool
  | none => true
  | some s => s = ""

/-- JS truthiness of an optional number field: `undefined`, `null` and `0`
are falsy (`NaN`, also falsy, cannot arise from the JSON bodies modelled). -/
def numFalsy : Option Int → Bool
  | none => true
  | some n => n = 0

/-- JS `x <= 0` where `x` is an optional number: comparison with
`undefined` is false (`NaN <= 0` is false). -/
def jsLeZero : Option Int → Bool
  | none => false
  | some n => n ≤ 0

/-- JS `a || d` for an optional string `a` and default `d`:
the default is taken exactly when `a` is falsy. -/
def jsOrString (v : Option String) (dflt : String) : String :=
  match v with
  | none => dflt
  | some s => if s = "" then dflt else s

/-- Split a character list at every occurrence of `sep`, keeping empty
segments, as `String.split` does for a single-character separator
(so the number of segments is one more than the number of separators). -/
def splitOnChar (sep : Char) : List Char → List (List Char)
  | [] => [[]]
  | c :: rest =>
    let r := splitOnChar sep rest
    if c = sep then [] :: r
    else
      match r with
      | h :: t => (c :: h) :: t
      | [] => [[c]]

/-- A character matched by the regex class `[0-9a-f]` under the `i` flag. -/
def hexChar (c : Char) : Bool :=
  c.isDigit || ('a' ≤ c && c ≤ 'f') || ('A' ≤ c && c ≤ 'F')

/-- Translation of the UUID check
`/^[0-9a-f]{8}-[0-9a-f]{4}-[0-9a-f]{4}-[0-9a-f]{4}-[0-9a-f]{12}$/i.test(s)`:
the hex classes exclude the dash, so the string matches exactly when the
dash-separated segments are five hexadecimal runs of lengths 8-4-4-4-12. -/
def isUUID (s : String) : Bool :=
  match splitOnChar '-' s.toList with
  | [a, b, c, d, e] =>
    a.length = 8 && b.length = 4 && c.length = 4 && d.length = 4 &&
      e.length = 12 && (a ++ b ++ c ++ d ++ e).all hexChar
  | _ => false

/-- A character matched by the regex class `[^\s@]` (not whitespace, not `@`). -/
def emailChar (c : Char) : Bool :=
  !c.isWhitespace && c ≠ '@'

/-- Translation of the email check `/^[^\s@]+@[^\s@]+\.[^\s@]+$/.test(s)`:
the classes exclude `@`, so the string matches exactly when it has a single
`@` with a nonempty class-conforming run before it and, after it, a
class-conforming run containing a dot that is neither its first nor its
last character. -/
def emailValid (s : String) : Bool :=
  match splitOnChar '@' s.toList with
  | [x, y] =>
    !x.isEmpty && x.all emailChar && y.all emailChar &&
      ((y.drop 1).dropLast.contains '.')
  | _ => false

/-- A character matched by the regex class `[\d\s\-\(\)]` (digits,
whitespace, dash, parentheses). -/
def phoneChar (c : Char) : Bool :=
  c.isDigit || c.isWhitespace || c = '-' || c = '(' || c = ')'

/-- Translation of the phone check `/^\+?[\d\s\-\(\)]{7,15}$/.test(s)`:
the class excludes `+`, so a leading `+` must be consumed by `\+?` and the
remainder must be 7 to 15 class characters. -/
def phoneValid (s : String) : Bool :=
  let rest :=
    match s.toList with
    | '+' :: t => t
    | t => t
  decide (7 ≤ rest.length) && decide (rest.length ≤ 15) && rest.all phoneChar

/-- The pagination summary object built by every list handler. -/
structure Pagination where
  page : Nat
  limit : Nat
  total : Nat
  totalPages : Nat
  hasNext : Bool
  hasPrev : Bool
deriving DecidableEq, Repr

/-- Translation of the pagination summary computed at the end of the list
handlers (members, transactions, pricing plans):
`totalPages = Math.ceil((count || 0) / limit)`,
`hasNext: page < totalPages`, `hasPrev: page > 1`.
For a positive `limit`, `Math.ceil(total / limit)` on naturals equals
`(total + limit - 1) / limit` in truncating division. -/
def paginationSummary (page limit total : Nat) : Pagination :=
  let totalPages := (total + limit - 1) / limit
  { page := page
    limit := limit
    total := total
    totalPages := totalPages
    hasNext := page < totalPages
    hasPrev := 1 < page }

/-- A row of the `members` table, restricted to the columns the embedded
handlers read (`id` for existence checks, `subscription_plan_id` for the
plan-in-use check). -/
structure MemberRow where
  id : String
  subscription_plan_id : Option String
deriving DecidableEq, Repr

/-- A row of the `pricing_plans` table, restricted to the column the
embedded handlers read. -/
structure PlanRow where
  id : String
deriving DecidableEq, Repr

/-- A row of the `transactions` table, restricted to the columns the
embedded handlers read. -/
structure TxRow where
  id : String
  member_id : String
deriving DecidableEq, Repr

/-- The external store state: the three tables the handlers query.
Store reads are modelled as pure lookups (the transport-failure 500
branches of the handlers are outside every claim considered). -/
structure Store where
  members : List MemberRow
  pricing_plans : List PlanRow
  transactions : List TxRow
deriving DecidableEq, Repr

/-- Parsed JSON body of `POST /api/members` (`CreateMemberRequest`);
absent JSON keys are `none`. -/
structure CreateMemberRequest where
  first_name : Option String := none
  last_name : Option String := none
  photo_url : Option String := none
  phone : Option String := none
  email : Option String := none
  address : Option String := none
  health_issues : Option String := none
  subscription_plan_id : Option String := none
  subscription_start_date : Option String := none
  subscription_expiry_date : Option String := none
  last_fee_paid_date : Option String := none
deriving DecidableEq, Repr

/-- `requiredFields.filter(field => !memberData[field])` with
`requiredFields = ['first_name', 'last_name', 'phone', 'email']`:
the required fields, in order, whose values are JS-falsy. -/
def memberMissingFields (b : CreateMemberRequest) : List String :=
  (if strFalsy b.first_name then ["first_name"] else []) ++
  (if strFalsy b.last_name then ["last_name"] else []) ++
  (if strFalsy b.phone then ["phone"] else []) ++
  (if strFalsy b.email then ["email"] else [])

/-- `POST /api/members` (`src/app/api/members/[id]/route.ts`, `POST`).
`apiKeyOk` is the result of `validateApiKey`; `insertErrCode` is the error
code the store returned for the `insert` call (`none` on success).  The
second component is the row handed to `insert`, `none` when the handler
returned before issuing the insert. -/
def membersPOST (apiKeyOk : Bool) (body : CreateMemberRequest)
    (insertErrCode : Option String) : ApiResponse × Option CreateMemberRequest :=
  if !apiKeyOk then (errorResponse "Invalid or missing API key" 401, none)
  else
    let missing := memberMissingFields body
    if missing ≠ [] then (.failure 400 "Missing required fields" missing, none)
    else if !emailValid (body.email.getD "") then
      (errorResponse "Invalid email format", none)
    else if !phoneValid (body.phone.getD "") then
      (errorResponse "Invalid phone format", none)
    else
      match insertErrCode with
      | some "23505" =>
        (errorResponse "Member with this email or phone already exists" 409, some body)
      | some _ => (errorResponse "Failed to create member" 500, some body)
      | none => (.success 201, some body)

/-- `PUT /api/members/:id` (`src/app/api/members/[id]/route.ts`, `PUT`).
`memberId` is the last path segment; `body` the parsed JSON body (its `id`
key, deleted by the handler, is not modelled); `dbErrCode` the error code
of the store `update` call. -/
def membersPUT (apiKeyOk : Bool) (memberId : String) (body : CreateMemberRequest)
    (dbErrCode : Option String) : ApiResponse :=
  if !apiKeyOk then errorResponse "Invalid or missing API key" 401
  else if memberId = "" ∨ memberId = "members" then
    errorResponse "Member ID is required"
  else if !strFalsy body.email && !emailValid (body.email.getD "") then
    errorResponse "Invalid email format"
  else if !strFalsy body.phone && !phoneValid (body.phone.getD "") then
    errorResponse "Invalid phone format"
  else
    match dbErrCode with
    | some "PGRST116" => errorResponse "Member not found" 404
    | some "23505" =>
      errorResponse "Email or phone already exists for another member" 409
    | some _ => errorResponse "Failed to update member" 500
    | none => .success 200

/-- Parsed JSON body of `POST /api/pricing_plans`
(`CreatePricingPlanRequest`); absent JSON keys are `none`. -/
structure CreatePricingPlanRequest where
  name : Option String := none
  description : Option String := none
  price : Option Int := none
  duration_days : Option Int := none
  features : Option (List String) := none
  is_active : Option Bool := none
deriving DecidableEq, Repr

/-- `requiredFields.filter(field => !planData[field])` with
`requiredFields = ['name', 'price', 'duration_days']`. -/
def planMissingFields (b : CreatePricingPlanRequest) : List String :=
  (if strFalsy b.name then ["name"] else []) ++
  (if numFalsy b.price then ["price"] else []) ++
  (if numFalsy b.duration_days then ["duration_days"] else [])

/-- `{...planData, is_active: planData.is_active !== undefined ?
planData.is_active : true}` — the row handed to `insert`. -/
def planWithDefaults (b : CreatePricingPlanRequest) : CreatePricingPlanRequest :=
  { b with is_active := some (b.is_active.getD true) }

/-- `POST /api/pricing_plans` (`src/app/api/pricing_plans/route.ts`, `POST`).
The second component is the row handed to `insert`, `none` when the
handler returned before issuing the insert. -/
def pricingPlansPOST (apiKeyOk : Bool) (body : CreatePricingPlanRequest)
    (insertErrCode : Option String) :
    ApiResponse × Option CreatePricingPlanRequest :=
  if !apiKeyOk then (errorResponse "Invalid or missing API key" 401, none)
  else
    let missing := planMissingFields body
    if missing ≠ [] then (.failure 400 "Missing required fields" missing, none)
    else if jsLeZero body.price then
      (errorResponse "Price must be greater than 0", none)
    else if jsLeZero body.duration_days then
      (errorResponse "Duration days must be greater than 0", none)
    else
      let row := planWithDefaults body
      match insertErrCode with
      | some "23505" =>
        (errorResponse "Pricing plan with this name already exists" 409, some row)
      | some _ => (errorResponse "Failed to create pricing plan" 500, some row)
      | none => (.success 201, some row)

/-- `DELETE /api/pricing_plans/:id` (pricing-plan id route, `DELETE`).
Returns the response together with the store state after the call, so
that "the delete was never issued" is observable as the store being
unchanged. -/
def pricingPlanDELETE (apiKeyOk : Bool) (planId : String) (store : Store) :
    ApiResponse × Store :=
  if !apiKeyOk then (errorResponse "Invalid or missing API key" 401, store)
  else if !isUUID planId then
    (errorResponse "Invalid pricing plan ID format" 400, store)
  else if store.members.any (fun m => m.subscription_plan_id = some planId) then
    (errorResponse "Cannot delete pricing plan that is currently in use by members" 409,
      store)
  else
    (.noContent,
      { store with
          pricing_plans := store.pricing_plans.filter (fun p => p.id ≠ planId) })

/-- Parsed JSON body of `POST /api/transactions`; absent JSON keys are
`none`. -/
structure CreateTransactionRequest where
  member_id : Option String := none
  plan_id : Option String := none
  amount : Option Int := none
  payment_method : Option String := none
  transaction_date : Option String := none
  status : Option String := none
  notes : Option String := none
deriving DecidableEq, Repr

/-- `requiredFields.filter(field => !transactionData[field])` with
`requiredFields = ['member_id', 'amount', 'payment_method',
'transaction_date']`. -/
def txMissingFields (b : CreateTransactionRequest) : List String :=
  (if strFalsy b.member_id then ["member_id"] else []) ++
  (if numFalsy b.amount then ["amount"] else []) ++
  (if strFalsy b.payment_method then ["payment_method"] else []) ++
  (if strFalsy b.transaction_date then ["transaction_date"] else [])

/-- `{...transactionData, status: transactionData.status || 'pending'}` —
the row handed to `insert`. -/
def transactionInsertRow (b : CreateTransactionRequest) : CreateTransactionRequest :=
  { b with status := some (jsOrString b.status "pending") }

/-- `POST /api/transactions` (`src/app/api/transactions/route.ts`, `POST`).
The member-exists and plan-exists pre-checks read `store`; `insertErrCode`
is the error code of the store `insert` call.  The second component is the
row handed to `insert`, `none` when the handler returned before issuing
the insert. -/
def transactionsPOST (apiKeyOk : Bool) (body : CreateTransactionRequest)
    (store : Store) (insertErrCode : Option String) :
    ApiResponse × Option CreateTransactionRequest :=
  if !apiKeyOk then (errorResponse "Invalid or missing API key" 401, none)
  else
    let missing := txMissingFields body
    if missing ≠ [] then (.failure 400 "Missing required fields" missing, none)
    else if jsLeZero body.amount then
      (errorResponse "Amount must be greater than 0", none)
    else if !store.members.any (fun m => m.id = body.member_id.getD "") then
      (errorResponse "Member not found" 404, none)
    else if !strFalsy body.plan_id &&
        !store.pricing_plans.any (fun p => p.id = body.plan_id.getD "") then
      (errorResponse "Pricing plan not found" 404, none)
    else
      let row := transactionInsertRow body
      match insertErrCode with
      | some _ => (errorResponse "Failed to create transaction" 500, some row)
      | none => (.success 201, some row)

/-- `GET /api/transactions/:id` (`src/app/api/transactions/[id]/route.ts`,
`GET`).  `apiKeyOk` is the result of `validateApiKey`; `tokenMemberId` the
member id extracted by `validateMemberToken` (`none` when the bearer token
is missing, malformed, expired or badly signed).  The handler fetches the
transaction first, then checks admin-or-owner. -/
def transactionsIdGET (store : Store) (apiKeyOk : Bool)
    (tokenMemberId : Option String) (txId : String) : ApiResponse :=
  if !isUUID txId then errorResponse "Invalid transaction ID format" 400
  else
    match store.transactions.find? (fun t => t.id = txId) with
    | none => errorResponse "Transaction not found" 404
    | some tx =>
      if !apiKeyOk && tokenMemberId ≠ some tx.member_id then
        errorResponse "Access denied. Admin access or transaction ownership required" 403
      else .success 200

/-- C1: for every list request whose query yields total count `total` with
page number `page` and page size `limit` (positive), the pagination summary
satisfies `totalPages = ceil(total / limit)` — stated both as Mathlib's
ceiling division and by the Galois characterization `totalPages ≤ n ↔
total ≤ limit * n` — together with `hasNext = (page < totalPages)` and
`hasPrev = (page > 1)`; in particular `page = 2`, `limit = 10`,
`total = 25` yields `{page := 2, limit := 10, total := 25, totalPages := 3,
hasNext := true, hasPrev := true}`. -/
theorem c1_pagination_summary (page limit total : Nat) (h : 0 < limit) :
    ((paginationSummary page limit total).totalPages = total ⌈/⌉ limit ∧
      ∀ n : Nat, (paginationSummary page limit total).totalPages ≤ n ↔ total ≤ limit * n) ∧
    ((paginationSummary page limit total).hasNext
        = decide (page < (paginationSummary page limit total).totalPages) ∧
      (paginationSummary page limit total).hasPrev = decide (1 < page)) ∧
    paginationSummary 2 10 25 =
      { page := 2, limit := 10, total := 25, totalPages := 3,
        hasNext := true, hasPrev := true } := by
  refine ⟨⟨(Nat.ceilDiv_eq_add_pred_div total limit).symm, fun n => ?_⟩, ⟨rfl, rfl⟩, by decide⟩
  simpa [paginationSummary, ← Nat.ceilDiv_eq_add_pred_div] using ceilDiv_le_iff_le_mul h

/-- Witness for C1 at `page = 2`, `limit = 10`, `total = 25`. -/
theorem c1_pagination_summary_witness :
    paginationSummary 2 10 25 =
      { page := 2, limit := 10, total := 25, totalPages := 3,
        hasNext := true, hasPrev := true } :=
  (c1_pagination_summary 2 10 25 (by decide)).2.2

/-- C2 counterexample: `POST /api/pricing_plans` with a valid admin key and
body `{name: "Gold", price: 0, duration_days: 30}` does NOT return the
error message "Price must be greater than 0": the truthiness-based
required-field check treats the number `0` as missing, so the response is
400 `{error: "Missing required fields", missing: ["price"]}`. -/
theorem c2_counterexample :
    (pricingPlansPOST true
      { name := some "Gold", price := some 0, duration_days := some 30 } none).1
      = ApiResponse.failure 400 "Missing required fields" ["price"] ∧
    (pricingPlansPOST true
      { name := some "Gold", price := some 0, duration_days := some 30 } none).1
      ≠ errorResponse "Price must be greater than 0" := by
  decide

/-- C2 amended: with a valid admin key, body `{name: "Gold", price: 0,
duration_days: 30}` yields status 400 with error "Missing required fields"
and missing list `["price"]` (price 0 is JS-falsy, hence counted missing);
the message "Price must be greater than 0" is produced for a present
non-positive nonzero price, e.g. `price = -1`. -/
theorem c2_amended :
    (pricingPlansPOST true
      { name := some "Gold", price := some 0, duration_days := some 30 } none).1
      = ApiResponse.failure 400 "Missing required fields" ["price"] ∧
    (pricingPlansPOST true
      { name := some "Gold", price := some (-1), duration_days := some 30 } none).1
      = errorResponse "Price must be greater than 0" := by
  decide

/-- C3 counterexample: `GET /api/transactions/:id` on an existing
transaction with no credential at all (no admin key, no bearer token)
returns 403, not the 401 the claim requires for a missing credential. -/
theorem c3_counterexample :
    transactionsIdGET
      { members := [], pricing_plans := [],
        transactions :=
          [{ id := "11111111-1111-1111-1111-111111111111", member_id := "m1" }] }
      false none "11111111-1111-1111-1111-111111111111"
      = errorResponse "Access denied. Admin access or transaction ownership required" 403 ∧
    (transactionsIdGET
      { members := [], pricing_plans := [],
        transactions :=
          [{ id := "11111111-1111-1111-1111-111111111111", member_id := "m1" }] }
      false none "11111111-1111-1111-1111-111111111111").statusCode ≠ 401 := by
  decide

/-- C3 amended: for `GET /api/transactions/:id` on an existing transaction,
every caller that does not present a valid admin key and whose bearer-token
identity (possibly absent: missing/invalid credentials decode to no
identity) differs from the transaction's owning member receives 403; the
handler has no 401 path. -/
theorem c3_amended (store : Store) (txId : String)
    (tokenMemberId : Option String) (tx : TxRow)
    (huuid : isUUID txId = true)
    (hfind : store.transactions.find? (fun t => t.id = txId) = some tx)
    (howner : tokenMemberId ≠ some tx.member_id) :
    transactionsIdGET store false tokenMemberId txId
      = errorResponse "Access denied. Admin access or transaction ownership required" 403 := by
  simp [transactionsIdGET, huuid, hfind, howner]

/-- Witness for C3 amended: concrete store, unauthenticated caller. -/
theorem c3_amended_witness :
    transactionsIdGET
      { members := [], pricing_plans := [],
        transactions :=
          [{ id := "22222222-2222-2222-2222-222222222222", member_id := "m7" }] }
      false none "22222222-2222-2222-2222-222222222222"
      = errorResponse "Access denied. Admin access or transaction ownership required" 403 :=
  c3_amended
    { members := [], pricing_plans := [],
      transactions :=
        [{ id := "22222222-2222-2222-2222-222222222222", member_id := "m7" }] }
    "22222222-2222-2222-2222-222222222222" none
    { id := "22222222-2222-2222-2222-222222222222", member_id := "m7" }
    (by decide) (by decide) (by decide)

/-- C10: `GET /api/transactions/:id` fetches the transaction before any
authorization check, so a caller with no credential (no admin key, no
token) observes 404 when the id does not exist in the store and 403 when
it does — an existence oracle. -/
theorem c10_unauthenticated_existence_oracle (store : Store) (txId : String)
    (huuid : isUUID txId = true) :
    (store.transactions.find? (fun t => t.id = txId) = none →
      transactionsIdGET store false none txId
        = errorResponse "Transaction not found" 404) ∧
    (∀ tx, store.transactions.find? (fun t => t.id = txId) = some tx →
      transactionsIdGET store false none txId
        = errorResponse "Access denied. Admin access or transaction ownership required" 403) := by
  constructor
  · intro hfind
    simp [transactionsIdGET, huuid, hfind]
  · intro tx hfind
    simp [transactionsIdGET, huuid, hfind]

/-- Witness for C10: one store lacking the id (404) and one holding it
(403), same unauthenticated caller. -/
theorem c10_unauthenticated_existence_oracle_witness :
    transactionsIdGET { members := [], pricing_plans := [], transactions := [] }
      false none "33333333-3333-3333-3333-333333333333"
      = errorResponse "Transaction not found" 404 ∧
    transactionsIdGET
      { members := [], pricing_plans := [],
        transactions :=
          [{ id := "33333333-3333-3333-3333-333333333333", member_id := "m1" }] }
      false none "33333333-3333-3333-3333-333333333333"
      = errorResponse "Access denied. Admin access or transaction ownership required" 403 :=
  ⟨(c10_unauthenticated_existence_oracle
      { members := [], pricing_plans := [], transactions := [] }
      "33333333-3333-3333-3333-333333333333" (by decide)).1 (by decide),
    (c10_unauthenticated_existence_oracle
      { members := [], pricing_plans := [],
        transactions :=
          [{ id := "33333333-3333-3333-3333-333333333333", member_id := "m1" }] }
      "33333333-3333-3333-3333-333333333333" (by decide)).2
      { id := "33333333-3333-3333-3333-333333333333", member_id := "m1" } (by decide)⟩

/-- C4 counterexample: a `POST /api/members` body with a valid admin key,
all required fields present, and BOTH email and phone of invalid format
is answered with 400 `{error: "Invalid email format"}` alone — the missing
list is empty and the phone violation is not reported, refuting "reports
both violated fields in one 400 response". -/
theorem c4_counterexample :
    (membersPOST true
      { first_name := some "A", last_name := some "B",
        phone := some "abc", email := some "bad" } none).1
      = ApiResponse.failure 400 "Invalid email format" [] := by
  decide

/-- C4 amended: missing required fields are aggregated into a single 400
listing all of them; the format checks run sequentially afterwards and
report only the first violation (email before phone), so a body whose
email and phone are both invalid yields 400 "Invalid email format" alone. -/
theorem c4_amended (b : CreateMemberRequest) (dbErr : Option String) :
    (memberMissingFields b ≠ [] →
      (membersPOST true b dbErr).1
        = ApiResponse.failure 400 "Missing required fields" (memberMissingFields b)) ∧
    (memberMissingFields b = [] → emailValid (b.email.getD "") = false →
      (membersPOST true b dbErr).1 = errorResponse "Invalid email format") ∧
    (memberMissingFields b = [] → emailValid (b.email.getD "") = true →
      phoneValid (b.phone.getD "") = false →
      (membersPOST true b dbErr).1 = errorResponse "Invalid phone format") := by
  refine ⟨fun hmiss => ?_, fun hmiss hemail => ?_, fun hmiss hemail hphone => ?_⟩
  · simp [membersPOST, hmiss]
  · simp [membersPOST, hmiss, hemail]
  · simp [membersPOST, hmiss, hemail, hphone]

/-- Witness for C4 amended: both format fields invalid, email alone
reported; and a body missing two fields gets both aggregated. -/
theorem c4_amended_witness :
    (membersPOST true
      { first_name := some "A", last_name := some "B",
        phone := some "abc", email := some "bad" } none).1
      = errorResponse "Invalid email format" ∧
    (membersPOST true { first_name := some "A", phone := some "abc" } none).1
      = ApiResponse.failure 400 "Missing required fields" ["last_name", "email"] :=
  ⟨(c4_amended
      { first_name := some "A", last_name := some "B",
        phone := some "abc", email := some "bad" } none).2.1 (by decide) (by decide),
    (c4_amended { first_name := some "A", phone := some "abc" } none).1 (by decide)⟩

/-- C5: `DELETE /api/pricing_plans/:id` with a valid admin key and a
well-formed UUID, when at least one member references the plan via
`subscription_plan_id`, responds 409 and leaves the store unchanged —
the delete is never issued. -/
theorem c5_plan_delete_blocked (store : Store) (planId : String)
    (huuid : isUUID planId = true)
    (hused : ∃ m ∈ store.members, m.subscription_plan_id = some planId) :
    pricingPlanDELETE true planId store
      = (errorResponse "Cannot delete pricing plan that is currently in use by members" 409,
          store) := by
  have hany : store.members.any (fun m => m.subscription_plan_id = some planId) = true := by
    rw [List.any_eq_true]
    obtain ⟨m, hm, hs⟩ := hused
    exact ⟨m, hm, by simp [hs]⟩
  simp [pricingPlanDELETE, huuid, hany]

/-- Witness for C5: a one-member store referencing the plan; the 409 is
returned and the plan row survives. -/
theorem c5_plan_delete_blocked_witness :
    pricingPlanDELETE true "44444444-4444-4444-4444-444444444444"
      { members :=
          [{ id := "m1",
             subscription_plan_id := some "44444444-4444-4444-4444-444444444444" }],
        pricing_plans := [{ id := "44444444-4444-4444-4444-444444444444" }],
        transactions := [] }
      = (errorResponse "Cannot delete pricing plan that is currently in use by members" 409,
          { members :=
              [{ id := "m1",
                 subscription_plan_id := some "44444444-4444-4444-4444-444444444444" }],
            pricing_plans := [{ id := "44444444-4444-4444-4444-444444444444" }],
            transactions := [] }) :=
  c5_plan_delete_blocked
    { members :=
        [{ id := "m1",
           subscription_plan_id := some "44444444-4444-4444-4444-444444444444" }],
      pricing_plans := [{ id := "44444444-4444-4444-4444-444444444444" }],
      transactions := [] }
    "44444444-4444-4444-4444-444444444444" (by decide)
    ⟨{ id := "m1",
       subscription_plan_id := some "44444444-4444-4444-4444-444444444444" },
      by simp, rfl⟩

/-- C6: `POST /api/members` with a valid admin key and a body passing
validation, when the store reports uniqueness-violation code 23505,
responds with conflict status 409 (not the generic 500). -/
theorem c6_duplicate_member_conflict (b : CreateMemberRequest)
    (hmiss : memberMissingFields b = [])
    (hemail : emailValid (b.email.getD "") = true)
    (hphone : phoneValid (b.phone.getD "") = true) :
    (membersPOST true b (some "23505")).1
      = errorResponse "Member with this email or phone already exists" 409 ∧
    ((membersPOST true b (some "23505")).1).statusCode = 409 ∧
    ((membersPOST true b (some "23505")).1).statusCode ≠ 500 := by
  have hresp : (membersPOST true b (some "23505")).1
      = errorResponse "Member with this email or phone already exists" 409 := by
    simp [membersPOST, hmiss, hemail, hphone]
  exact ⟨hresp, by rw [hresp]; rfl, by rw [hresp]; decide⟩

/-- Witness for C6: a concrete valid body hitting the 23505 branch. -/
theorem c6_duplicate_member_conflict_witness :
    (membersPOST true
      { first_name := some "A", last_name := some "B",
        phone := some "+1 555-123-4567", email := some "a@b.c" }
      (some "23505")).1
      = errorResponse "Member with this email or phone already exists" 409 :=
  (c6_duplicate_member_conflict
    { first_name := some "A", last_name := some "B",
      phone := some "+1 555-123-4567", email := some "a@b.c" }
    (by decide) (by decide) (by decide)).1

/-- C7: in member create (`POST /api/members`) and member update
(`PUT /api/members/:id`), the phone format check always rejects "abc"
with a 400 response and always accepts "+1 555-123-4567": for any body
passing the earlier checks, phone "abc" yields 400 "Invalid phone format"
in both handlers, while phone "+1 555-123-4567" passes the check (the
create reaches the insert and returns 201 on store success; the update
reaches the store update and returns 200 on success). -/
theorem c7_phone_format_check (b u : CreateMemberRequest) (memberId : String)
    (dbErr : Option String) :
    (phoneValid "abc" = false ∧ phoneValid "+1 555-123-4567" = true) ∧
    (memberMissingFields b = [] → emailValid (b.email.getD "") = true →
      b.phone = some "abc" →
      (membersPOST true b dbErr).1 = errorResponse "Invalid phone format") ∧
    (memberMissingFields b = [] → emailValid (b.email.getD "") = true →
      b.phone = some "+1 555-123-4567" →
      (membersPOST true b none).1 = ApiResponse.success 201) ∧
    (memberId ≠ "" → memberId ≠ "members" →
      (strFalsy u.email = true ∨ emailValid (u.email.getD "") = true) →
      u.phone = some "abc" →
      membersPUT true memberId u dbErr = errorResponse "Invalid phone format") ∧
    (memberId ≠ "" → memberId ≠ "members" →
      (strFalsy u.email = true ∨ emailValid (u.email.getD "") = true) →
      u.phone = some "+1 555-123-4567" →
      membersPUT true memberId u none = ApiResponse.success 200) := by
  refine ⟨⟨by decide, by decide⟩,
    fun hmiss hemail hp => ?_, fun hmiss hemail hp => ?_,
    fun h1 h2 hem hp => ?_, fun h1 h2 hem hp => ?_⟩
  · have hpv : phoneValid (b.phone.getD "") = false := by rw [hp]; decide
    simp [membersPOST, hmiss, hemail, hpv]
  · have hpv : phoneValid (b.phone.getD "") = true := by rw [hp]; decide
    simp [membersPOST, hmiss, hemail, hpv]
  · have hpf : strFalsy u.phone = false := by rw [hp]; decide
    have hpv : phoneValid (u.phone.getD "") = false := by rw [hp]; decide
    rcases hem with he | he <;> simp [membersPUT, h1, h2, he, hpf, hpv]
  · have hpv : phoneValid (u.phone.getD "") = true := by rw [hp]; decide
    rcases hem with he | he <;> simp [membersPUT, h1, h2, he, hpv]

/-- Witness for C7: concrete create and update requests exercising all
four outcomes. -/
theorem c7_phone_format_check_witness :
    (membersPOST true
      { first_name := some "A", last_name := some "B",
        phone := some "abc", email := some "a@b.c" } none).1
      = errorResponse "Invalid phone format" ∧
    (membersPOST true
      { first_name := some "A", last_name := some "B",
        phone := some "+1 555-123-4567", email := some "a@b.c" } none).1
      = ApiResponse.success 201 ∧
    membersPUT true "x1" { phone := some "abc" } none
      = errorResponse "Invalid phone format" ∧
    membersPUT true "x1" { phone := some "+1 555-123-4567" } none
      = ApiResponse.success 200 :=
  ⟨(c7_phone_format_check
      { first_name := some "A", last_name := some "B",
        phone := some "abc", email := some "a@b.c" }
      {} "x1" none).2.1 (by decide) (by decide) rfl,
    (c7_phone_format_check
      { first_name := some "A", last_name := some "B",
        phone := some "+1 555-123-4567", email := some "a@b.c" }
      {} "x1" none).2.2.1 (by decide) (by decide) rfl,
    (c7_phone_format_check {} { phone := some "abc" } "x1" none).2.2.2.1
      (by decide) (by decide) (Or.inl (by decide)) rfl,
    (c7_phone_format_check {} { phone := some "+1 555-123-4567" } "x1" none).2.2.2.2
      (by decide) (by decide) (Or.inl (by decide)) rfl⟩

/-- C8: `POST /api/transactions` passing authorization and validation,
with the body's `status` omitted or JS-falsy, hands the store an insert
row whose `status` is "pending". -/
theorem c8_default_pending_status (b : CreateTransactionRequest) (store : Store)
    (insErr : Option String)
    (hmiss : txMissingFields b = [])
    (hamt : jsLeZero b.amount = false)
    (hmem : store.members.any (fun m => m.id = b.member_id.getD "") = true)
    (hplan : strFalsy b.plan_id = true ∨
      store.pricing_plans.any (fun p => p.id = b.plan_id.getD "") = true)
    (hstatus : strFalsy b.status = true) :
    (transactionsPOST true b store insErr).2 = some (transactionInsertRow b) ∧
    (transactionInsertRow b).status = some "pending" := by
  constructor
  · rcases hplan with hp | hp <;>
      cases insErr <;> simp [transactionsPOST, hmiss, hamt, hmem, hp]
  · cases hb : b.status with
    | none => simp [transactionInsertRow, jsOrString, hb]
    | some s =>
      have hs : s = "" := by simpa [strFalsy, hb] using hstatus
      simp [transactionInsertRow, jsOrString, hb, hs]

/-- Witness for C8: concrete body with `status` absent, member present in
the store. -/
theorem c8_default_pending_status_witness :
    (transactionsPOST true
      { member_id := some "m1", amount := some 50,
        payment_method := some "cash", transaction_date := some "2024-01-01" }
      { members := [{ id := "m1", subscription_plan_id := none }],
        pricing_plans := [], transactions := [] }
      none).2
      = some (transactionInsertRow
          { member_id := some "m1", amount := some 50,
            payment_method := some "cash", transaction_date := some "2024-01-01" }) ∧
    (transactionInsertRow
      { member_id := some "m1", amount := some 50,
        payment_method := some "cash", transaction_date := some "2024-01-01" }).status
      = some "pending" :=
  c8_default_pending_status
    { member_id := some "m1", amount := some 50,
      payment_method := some "cash", transaction_date := some "2024-01-01" }
    { members := [{ id := "m1", subscription_plan_id := none }],
      pricing_plans := [], transactions := [] }
    none (by decide) (by decide) (by decide) (Or.inl (by decide)) (by decide)

/-- C9: `POST /api/pricing_plans` passing authorization and validation
hands the store the body extended with the `is_active` default: omitted
`is_active` becomes `true`, a supplied value (true or false) is kept. -/
theorem c9_is_active_default (b : CreatePricingPlanRequest) (insErr : Option String)
    (hmiss : planMissingFields b = [])
    (hprice : jsLeZero b.price = false)
    (hdur : jsLeZero b.duration_days = false) :
    (pricingPlansPOST true b insErr).2 = some (planWithDefaults b) ∧
    (b.is_active = none → (planWithDefaults b).is_active = some true) ∧
    ∀ v, b.is_active = some v → (planWithDefaults b).is_active = some v := by
  refine ⟨?_, fun h => by simp [planWithDefaults, h],
    fun v h => by simp [planWithDefaults, h]⟩
  simp only [pricingPlansPOST, hmiss, hprice, hdur]
  simp only [Bool.not_true, Bool.false_eq_true, if_false, ne_eq,
    not_true_eq_false, reduceIte]
  split <;> rfl

/-- Witness for C9: omitted `is_active` inserted as `true`, and a supplied
`false` kept. -/
theorem c9_is_active_default_witness :
    (pricingPlansPOST true
      { name := some "Gold", price := some 10, duration_days := some 30 } none).2
      = some (planWithDefaults
          { name := some "Gold", price := some 10, duration_days := some 30 }) ∧
    (planWithDefaults
      { name := some "Gold", price := some 10, duration_days := some 30 }).is_active
      = some true ∧
    (planWithDefaults
      { name := some "Gold", price := some 10, duration_days := some 30,
        is_active := some false }).is_active
      = some false :=
  ⟨(c9_is_active_default
      { name := some "Gold", price := some 10, duration_days := some 30 }
      none (by decide) (by decide) (by decide)).1,
    (c9_is_active_default
      { name := some "Gold", price := some 10, duration_days := some 30 }
      none (by decide) (by decide) (by decide)).2.1 rfl,
    (c9_is_active_default
      { name := some "Gold", price := some 10, duration_days := some 30,
        is_active := some false }
      none (by decide) (by decide) (by decide)).2.2 false rfl⟩

end GymApi
